import Mathlib

/-!
Verification of the presence staleness tracker of the free-sleep backend
(`server/src/routes/metrics/presence.ts`, two variants, and the compiled
`server/dist/routes/metrics/presence.js`).

The tracker keeps, per bed zone ("left"/"right"), the last-known boolean
presence and the instant of the most recent write, classifies a zone as
stale at read time, and merges the two zones into one occupancy signal.

Modelling conventions:
* Instants (`Date.now()`) are natural numbers of milliseconds.  The JS
  expression `Date.now() - timestamp > STALE_DATA_TIMEOUT_MS` is modelled
  with truncated `Nat` subtraction: a negative JS difference and a
  truncated-to-zero `Nat` difference both fail the `> 600000` test, so the
  two agree.
* JS falsiness of a stored timestamp (`!timestamp`, `timestamp ? _ : _`)
  is modelled explicitly: `none` (null) and `some 0` (the number 0) are
  both falsy.
* The JSON value supplied for a side in a POST body is either a boolean or
  some non-boolean value; all non-booleans behave identically under
  `typeof v !== 'boolean'`, so they collapse to one constructor.
* Handlers are functions of the store, the current instant and the request,
  returning the response paired with the store after the call, so that
  mutation (or its absence) is visible in the result.
-/

namespace FreeSleep

/-- How long before presence data is considered stale (in milliseconds).
Source: `const STALE_DATA_TIMEOUT_MS = 10 * 60 * 1000`. -/
def STALE_DATA_TIMEOUT_MS : Nat := 10 * 60 * 1000

/-- A value supplied for one side in the POST body: a boolean, or any
non-boolean JSON value (they all fail `typeof v !== 'boolean'` alike). -/
inductive JVal where
  | jbool (b : Bool)
  | jother
deriving DecidableEq, Repr

/-- Source: the `lastUpdated` record of `InternalPresenceData`
(`left`/`right : number | null`). -/
structure LastUpdated where
  left : Option Nat
  right : Option Nat
deriving DecidableEq, Repr

/-- Source: `InternalPresenceData` — the in-memory store.
`left`/`right : boolean | null` hold the last-known presence booleans. -/
structure InternalPresenceData where
  left : Option Bool
  right : Option Bool
  lastUpdated : LastUpdated
deriving DecidableEq, Repr

/-- Source: the module-level initial value of `presenceData`
(all fields `null` until the first update). -/
def presenceDataInit : InternalPresenceData :=
  ⟨none, none, ⟨none, none⟩⟩

/-- Source: `isDataStale`.  JS `if (!timestamp) return true` treats both
`null` and the number `0` as falsy, hence the explicit `ts = 0` case. -/
def isDataStale (timestamp : Option Nat) (now : Nat) : Bool :=
  match timestamp with
  | none => true
  | some ts => if ts = 0 then true else decide (now - ts > STALE_DATA_TIMEOUT_MS)

/-- The formatted timestamp of a side view: the string `never`, or the
result of `moment(ts).tz(..).format()`, abstracted by the raw instant
(the formatting is injective on instants and otherwise uninterpreted). -/
inductive FormattedTime where
  | never
  | time (ts : Nat)
deriving DecidableEq, Repr

/-- Source: interface `SidePresent` of the formatSideData variant. -/
structure SidePresent where
  present : Bool
  lastUpdatedAt : FormattedTime
  isStale : Bool
deriving DecidableEq, Repr

/-- Source: `formatSideData`.  `present ?? false`; `timestamp ? format :
'never'` (again `0` is falsy); staleness recomputed at read time. -/
def formatSideData (present : Option Bool) (timestamp : Option Nat)
    (now : Nat) : SidePresent :=
  { present := present.getD false
    lastUpdatedAt :=
      match timestamp with
      | none => .never
      | some ts => if ts = 0 then .never else .time ts
    isStale := isDataStale timestamp now }

/-- Response of `POST /presence` (identical in both variants): a 400 body
`{ error, message }`, or a 200 body `{ success: true, message, data }`
where `data` is the full updated store. -/
inductive UpdateResponse where
  | badRequest (error message : String)
  | ok (left right : Option Bool) (lastUpdated : LastUpdated)
deriving DecidableEq, Repr

/-- `true` exactly on the 400 responses of `POST /presence`. -/
def UpdateResponse.isBadRequest : UpdateResponse → Bool
  | .badRequest _ _ => true
  | .ok _ _ _ => false

/-- Source: `router.post('/presence')` (the handler body is identical in
both variants).  Checks that at least one side is supplied, reads
`Date.now()` once into `currentTime`, then validates and writes `left`
followed by `right`, returning early with a 400 on the first non-boolean
value — any mutation already performed is kept. -/
def postPresence (st : InternalPresenceData) (now : Nat)
    (left right : Option JVal) : UpdateResponse × InternalPresenceData :=
  if left = none ∧ right = none then
    (.badRequest "At least one side (left or right) must be specified"
      "Please provide \"left\" and/or \"right\" with boolean values", st)
  else
    let currentTime := now
    match left with
    | some .jother =>
      (.badRequest "Invalid value for left"
        "Value must be a boolean (true or false)", st)
    | _ =>
      let st1 :=
        match left with
        | some (.jbool b) =>
          { st with left := some b
                    lastUpdated := { st.lastUpdated with left := some currentTime } }
        | _ => st
      match right with
      | some .jother =>
        (.badRequest "Invalid value for right"
          "Value must be a boolean (true or false)", st1)
      | _ =>
        let st2 :=
          match right with
          | some (.jbool b) =>
            { st1 with right := some b
                       lastUpdated := { st1.lastUpdated with right := some currentTime } }
          | _ => st1
        (.ok st2.left st2.right st2.lastUpdated, st2)

/-- Response of `GET /presence` in the formatSideData variant: a single
`SidePresent` when a known side is requested, else the `PresenceData`
pair of formatted views. -/
inductive GetResponseV1 where
  | sideView (v : SidePresent)
  | bothView (left right : SidePresent)
deriving DecidableEq, Repr

/-- Source: `router.get('/presence')`, formatSideData variant: per-side
formatted view for `side=left` / `side=right`, otherwise both sides. -/
def getPresenceV1 (st : InternalPresenceData) (now : Nat)
    (side : Option String) : GetResponseV1 × InternalPresenceData :=
  if side = some "left" then
    (.sideView (formatSideData st.left st.lastUpdated.left now), st)
  else if side = some "right" then
    (.sideView (formatSideData st.right st.lastUpdated.right now), st)
  else
    (.bothView (formatSideData st.left st.lastUpdated.left now)
      (formatSideData st.right st.lastUpdated.right now), st)

/-- A presence value in the sentinel variant: a boolean, or the
`'not available'` sentinel. -/
inductive PresenceVal where
  | notAvailable
  | val (b : Bool)
deriving DecidableEq, Repr

/-- The `details` object of the sentinel variant's merged response. -/
structure AllDetails where
  left : PresenceVal
  right : PresenceVal
deriving DecidableEq, Repr

/-- Response of `GET /presence` in the sentinel variant. -/
inductive GetResponseV2 where
  | sideNone (side message : String)
  | sideVal (side : String) (presence : Bool) (lastUpdated : Option Nat)
  | allNone (message : String)
  | allVal (presence : Bool) (details : AllDetails) (lastUpdated : LastUpdated)
deriving DecidableEq, Repr

/-- Source: `router.get('/presence')`, sentinel variant (also the compiled
`dist/routes/metrics/presence.js`).  Availability is
`present !== null && !isDataStale(lastUpdated)`, computed once per call;
per-side requests report the raw boolean or a `'not available'` body;
with no recognized side the two zones are merged: sentinel when neither
is available, the single available zone's boolean when exactly one is,
`left || right` when both are. -/
def getPresenceV2 (st : InternalPresenceData) (now : Nat)
    (side : Option String) : GetResponseV2 × InternalPresenceData :=
  let isLeftAvailable := st.left.isSome && ! isDataStale st.lastUpdated.left now
  let isRightAvailable := st.right.isSome && ! isDataStale st.lastUpdated.right now
  if side = some "left" then
    if !isLeftAvailable then
      (.sideNone "left" "No recent data available for left side", st)
    else
      (.sideVal "left" (st.left.getD false) st.lastUpdated.left, st)
  else if side = some "right" then
    if !isRightAvailable then
      (.sideNone "right" "No recent data available for right side", st)
    else
      (.sideVal "right" (st.right.getD false) st.lastUpdated.right, st)
  else
    if !isLeftAvailable && !isRightAvailable then
      (.allNone "No recent data available for either side", st)
    else
      let overallPresence :=
        if isLeftAvailable && !isRightAvailable then st.left.getD false
        else if !isLeftAvailable && isRightAvailable then st.right.getD false
        else st.left.getD false || st.right.getD false
      (.allVal overallPresence
        ⟨if isLeftAvailable then .val (st.left.getD false) else .notAvailable,
         if isRightAvailable then .val (st.right.getD false) else .notAvailable⟩
        st.lastUpdated, st)

/-- Extracts the overall presence value of a merged (`side: 'all'`)
response of the sentinel variant; `none` on per-side responses. -/
def overallOf : GetResponseV2 → Option PresenceVal
  | .allNone _ => some .notAvailable
  | .allVal b _ _ => some (.val b)
  | _ => none

/-- The spec's four-case merge policy, written from the spec's words for
comparison with `getPresenceV2`: availability is `present` not null and
not stale; neither available — the unavailable sentinel; exactly one
available — that zone's boolean; both available — the logical OR. -/
def specMergedPresence (st : InternalPresenceData) (now : Nat) : PresenceVal :=
  let avL := st.left.isSome && ! isDataStale st.lastUpdated.left now
  let avR := st.right.isSome && ! isDataStale st.lastUpdated.right now
  if avL && avR then .val (st.left.getD false || st.right.getD false)
  else if avL then .val (st.left.getD false)
  else if avR then .val (st.right.getD false)
  else .notAvailable

/-- Helper: the formatSideData-variant GET handler never changes the store. -/
theorem getPresenceV1_state_eq (st : InternalPresenceData) (now : Nat)
    (side : Option String) : (getPresenceV1 st now side).2 = st := by
  unfold getPresenceV1
  split
  · rfl
  · split <;> rfl

/-- Helper: the sentinel-variant GET handler never changes the store. -/
theorem getPresenceV2_state_eq (st : InternalPresenceData) (now : Nat)
    (side : Option String) : (getPresenceV2 st now side).2 = st := by
  unfold getPresenceV2
  dsimp only
  split
  · split <;> rfl
  · split
    · split <;> rfl
    · split <;> rfl

/-- Helper: staleness is monotone in the read instant — once a fixed
timestamp reads stale it stays stale at every later instant. -/
theorem isDataStale_mono (ts : Option Nat) (n₁ n₂ : Nat) (h : n₁ ≤ n₂)
    (hst : isDataStale ts n₁ = true) : isDataStale ts n₂ = true := by
  rcases ts with _ | t
  · rfl
  · unfold isDataStale at hst ⊢
    by_cases ht : t = 0
    · simp [ht]
    · simp only [ht, if_false, decide_eq_true_eq] at hst ⊢
      exact lt_of_lt_of_le hst (Nat.sub_le_sub_right h t)

/-- C1: the merged (no-side) read of the sentinel variant follows the
four-case policy: unavailable sentinel when neither zone is available,
the single available zone's stored boolean when exactly one is, and the
logical OR of the two stored booleans when both are. -/
theorem mergedPresence_follows_spec_policy (st : InternalPresenceData)
    (now : Nat) :
    overallOf (getPresenceV2 st now none).1 = some (specMergedPresence st now) := by
  unfold getPresenceV2 specMergedPresence overallOf
  cases hL : st.left.isSome && ! isDataStale st.lastUpdated.left now <;>
    cases hR : st.right.isSome && ! isDataStale st.lastUpdated.right now <;>
    simp [hL, hR]

/-- C2 counterexample: the claimed biconditional `stale ↔ now - lastUpdatedAt
> STALE_TIMEOUT` fails at the stored timestamp 0 — `!timestamp` treats the
number 0 as falsy, so the zone reads stale although `1 - 0 ≤ 600000`. -/
theorem isDataStale_zero_timestamp_cex :
    isDataStale (some 0) 1 = true ∧ ¬ ((1 : Nat) - 0 > STALE_DATA_TIMEOUT_MS) := by
  decide

/-- C2 (amended): staleness is derived at read time with timeout 600000 ms;
a zone with no prior write is stale on every read, a zone whose stored
timestamp is the falsy number 0 is likewise stale on every read, and for
every nonzero stored timestamp the zone is stale exactly when
`now - lastUpdatedAt > STALE_DATA_TIMEOUT_MS`. -/
theorem isDataStale_spec :
    STALE_DATA_TIMEOUT_MS = 600000 ∧
    (∀ now, isDataStale none now = true) ∧
    (∀ now, isDataStale (some 0) now = true) ∧
    (∀ ts now, 0 < ts →
      (isDataStale (some ts) now = true ↔ now - ts > STALE_DATA_TIMEOUT_MS)) := by
  refine ⟨rfl, fun now => rfl, fun now => rfl, fun ts now h => ?_⟩
  unfold isDataStale
  simp [Nat.pos_iff_ne_zero.mp h]

/-- Witness for `isDataStale_spec` at a concrete timestamp and instant. -/
theorem isDataStale_spec_witness : isDataStale (some 5) 600006 = true :=
  (isDataStale_spec.2.2.2 5 600006 (by decide)).mpr (by decide)

/-- C3: `POST /presence` answers 400 exactly when neither side is supplied
or a supplied side is not a boolean; otherwise it answers 200 carrying the
full updated store (both zones and both timestamps). -/
theorem postPresence_validation (st : InternalPresenceData) (now : Nat)
    (left right : Option JVal) :
    ((postPresence st now left right).1.isBadRequest = true ↔
      (left = none ∧ right = none) ∨ left = some .jother ∨ right = some .jother) ∧
    ((postPresence st now left right).1.isBadRequest = false →
      (postPresence st now left right).1 =
        .ok (postPresence st now left right).2.left
          (postPresence st now left right).2.right
          (postPresence st now left right).2.lastUpdated) := by
  rcases left with _ | (b | _) <;> rcases right with _ | (c | _) <;>
    simp [postPresence, UpdateResponse.isBadRequest]

/-- Witness for `postPresence_validation`: a valid left-only update from
the initial store at instant 5 succeeds with the updated store. -/
theorem postPresence_validation_witness :
    (postPresence presenceDataInit 5 (some (.jbool true)) none).1 =
      .ok (some true) none ⟨some 5, none⟩ :=
  ((postPresence_validation presenceDataInit 5 (some (.jbool true)) none).2
    (by decide)).trans (by decide)

/-- C4: the per-zone formatted view — a never-written zone reads
`present = false`, `lastUpdatedAt = never`, `isStale = true`; a zone with a
stored boolean always reports that boolean whatever its staleness; and the
per-side GET of the formatSideData variant returns exactly this view. -/
theorem getPresence_sideView :
    (∀ now, formatSideData none none now = ⟨false, .never, true⟩) ∧
    (∀ (b : Bool) ts now, (formatSideData (some b) ts now).present = b) ∧
    (∀ st now, (getPresenceV1 st now (some "left")).1 =
      .sideView (formatSideData st.left st.lastUpdated.left now)) ∧
    (∀ st now, (getPresenceV1 st now (some "right")).1 =
      .sideView (formatSideData st.right st.lastUpdated.right now)) := by
  refine ⟨fun now => rfl, fun b ts now => rfl, fun st now => rfl, fun st now => ?_⟩
  simp [getPresenceV1]

/-- C5: frame of a successful update — each supplied side's zone gets the
given boolean and the call instant, and the omitted side's zone keeps its
prior boolean and timestamp unchanged. -/
theorem postPresence_frame (st : InternalPresenceData) (now : Nat) (b c : Bool) :
    (postPresence st now (some (.jbool b)) none).2 =
      ⟨some b, st.right, ⟨some now, st.lastUpdated.right⟩⟩ ∧
    (postPresence st now none (some (.jbool c))).2 =
      ⟨st.left, some c, ⟨st.lastUpdated.left, some now⟩⟩ ∧
    (postPresence st now (some (.jbool b)) (some (.jbool c))).2 =
      ⟨some b, some c, ⟨some now, some now⟩⟩ := by
  obtain ⟨l, r, tl, tr⟩ := st
  exact ⟨rfl, rfl, rfl⟩

/-- C6 counterexample: at the clock instant 0 a left update stores the
falsy timestamp 0, so the immediate per-side read reports
`isStale = true` (and `lastUpdatedAt = never`), not the claimed
`isStale = false`. -/
theorem updateThenGet_zero_instant_cex :
    (getPresenceV1 (postPresence presenceDataInit 0 (some (.jbool true)) none).2
        0 (some "left")).1 = .sideView ⟨true, .never, true⟩ := by
  decide

/-- C6 (amended): at every nonzero clock instant `t`, updating the left
zone to `b` and immediately (zero elapsed time) reading `side=left`
reports `present = b` and `isStale = false`. -/
theorem updateThenGet_fresh (st : InternalPresenceData) (b : Bool) (t : Nat)
    (h : 0 < t) :
    (getPresenceV1 (postPresence st t (some (.jbool b)) none).2
        t (some "left")).1 = .sideView ⟨b, .time t, false⟩ := by
  have ht : t ≠ 0 := Nat.pos_iff_ne_zero.mp h
  simp [postPresence, getPresenceV1, formatSideData, isDataStale, ht]

/-- Witness for `updateThenGet_fresh` at instant 1 with `b = true`. -/
theorem updateThenGet_fresh_witness :
    (getPresenceV1 (postPresence presenceDataInit 1 (some (.jbool true)) none).2
        1 (some "left")).1 = .sideView ⟨true, .time 1, false⟩ :=
  updateThenGet_fresh presenceDataInit true 1 (by decide)

/-- C7: an unrecognized `side` value is treated exactly like an omitted
one — both GET variants answer the merged view (status 200), never an
error. -/
theorem getPresence_permissive (st : InternalPresenceData) (now : Nat)
    (s : String) (hL : s ≠ "left") (hR : s ≠ "right") :
    (getPresenceV1 st now (some s)).1 = (getPresenceV1 st now none).1 ∧
    (getPresenceV2 st now (some s)).1 = (getPresenceV2 st now none).1 := by
  constructor <;> simp [getPresenceV1, getPresenceV2, hL, hR]

/-- Witness for `getPresence_permissive` at the unrecognized side `up`. -/
theorem getPresence_permissive_witness :
    (getPresenceV1 presenceDataInit 3 (some "up")).1 =
      (getPresenceV1 presenceDataInit 3 none).1 ∧
    (getPresenceV2 presenceDataInit 3 (some "up")).1 =
      (getPresenceV2 presenceDataInit 3 none).1 :=
  getPresence_permissive presenceDataInit 3 "up" (by decide) (by decide)

/-- C8: `GET /presence` is a pure read — both variants leave the store
unchanged, so an immediate repeat at the same instant returns the same
value; across instants the `present` and `lastUpdatedAt` fields of a
formatted view never change, and `isStale` can only flip from fresh to
stale as time passes (it is monotone in the read instant). -/
theorem getPresence_pure_read :
    (∀ st now side, (getPresenceV1 st now side).2 = st ∧
      (getPresenceV2 st now side).2 = st) ∧
    (∀ st now side,
      (getPresenceV1 (getPresenceV1 st now side).2 now side).1 =
        (getPresenceV1 st now side).1 ∧
      (getPresenceV2 (getPresenceV2 st now side).2 now side).1 =
        (getPresenceV2 st now side).1) ∧
    (∀ p ts n₁ n₂,
      (formatSideData p ts n₁).present = (formatSideData p ts n₂).present ∧
      (formatSideData p ts n₁).lastUpdatedAt = (formatSideData p ts n₂).lastUpdatedAt) ∧
    (∀ p ts n₁ n₂, n₁ ≤ n₂ → (formatSideData p ts n₁).isStale = true →
      (formatSideData p ts n₂).isStale = true) := by
  refine ⟨fun st now side => ⟨getPresenceV1_state_eq st now side,
      getPresenceV2_state_eq st now side⟩,
    fun st now side => ⟨by rw [getPresenceV1_state_eq],
      by rw [getPresenceV2_state_eq]⟩,
    fun p ts n₁ n₂ => ⟨rfl, rfl⟩,
    fun p ts n₁ n₂ h hst => isDataStale_mono ts n₁ n₂ h hst⟩

/-- Witness for `getPresence_pure_read`: a zone written at instant 5 and
already stale at instant 700000 is still stale at instant 800000. -/
theorem getPresence_pure_read_witness :
    (formatSideData (some true) (some 5) 800000).isStale = true :=
  getPresence_pure_read.2.2.2 (some true) (some 5) 700000 800000
    (by decide) (by decide)

/-- C9: the update is not atomic across zones on validation error — a
valid left boolean followed by a non-boolean right yields the 400
response, yet the left zone has already been set to the given boolean and
stamped with the call instant, while the right zone keeps its prior
values. -/
theorem postPresence_partial_mutation (st : InternalPresenceData) (t : Nat)
    (b : Bool) :
    (postPresence st t (some (.jbool b)) (some .jother)).1 =
      .badRequest "Invalid value for right"
        "Value must be a boolean (true or false)" ∧
    (postPresence st t (some (.jbool b)) (some .jother)).2 =
      ⟨some b, st.right, ⟨some t, st.lastUpdated.right⟩⟩ := by
  obtain ⟨l, r, tl, tr⟩ := st
  exact ⟨rfl, rfl⟩

/-- C10: when one call updates both sides with valid booleans, the call
instant is read once, so both zones end with the same `lastUpdatedAt`. -/
theorem postPresence_shared_timestamp (st : InternalPresenceData) (t : Nat)
    (a b : Bool) :
    (postPresence st t (some (.jbool a)) (some (.jbool b))).2.lastUpdated.left
      = some t ∧
    (postPresence st t (some (.jbool a)) (some (.jbool b))).2.lastUpdated.right
      = some t ∧
    (postPresence st t (some (.jbool a)) (some (.jbool b))).2.lastUpdated.left
      = (postPresence st t (some (.jbool a)) (some (.jbool b))).2.lastUpdated.right := by
  exact ⟨rfl, rfl, rfl⟩

end FreeSleep
